import Mathlib

/-!
Verification of the particle-field renderer and DOM helpers of
`js/visual-manager.js` (class `UnifiedVisualManager`).

The JavaScript number type is modelled by `ℝ`.  `Math.random()` is modelled
by an explicit stream `rand : ℕ → ℝ` of samples, each assumed to lie in
`[0,1)`; the code consumes the stream in the same order as the source calls
`Math.random()`.  `Math.atan2`, `Math.sqrt`, `Math.cos`, `Math.sin` and
`Math.floor` are modelled by the corresponding real functions.
-/

/-- A particle, as pushed by `createParticles` (visual-manager.js lines
105-114): position, size, velocity, hue and the immutable origin anchor. -/
structure Particle where
  x : ℝ
  y : ℝ
  size : ℝ
  speedX : ℝ
  speedY : ℝ
  hue : ℝ
  originalX : ℝ
  originalY : ℝ

/-- `createParticles` (lines 93-116).  Given the canvas width `W` and height
`H` and the random stream, builds the fresh particle list:
`numberOfParticles = Math.floor(W*H/15000)`, and for each index the source
draws, in order, `size = Math.random()*3 + 1`, `x = Math.random()*W`,
`y = Math.random()*H`, `speedX = (Math.random()-0.5)*0.5`,
`speedY = (Math.random()-0.5)*0.5`, `hue = Math.random()*60 + 200`, and
stores `originalX = x`, `originalY = y`. -/
noncomputable def createParticles (W H : ℝ) (rand : ℕ → ℝ) : List Particle :=
  let numberOfParticles : ℕ := (⌊W * H / 15000⌋).toNat
  (List.range numberOfParticles).map (fun i =>
    let size := rand (6 * i) * 3 + 1
    let x := rand (6 * i + 1) * W
    let y := rand (6 * i + 2) * H
    let speedX := (rand (6 * i + 3) - 0.5) * 0.5
    let speedY := (rand (6 * i + 4) - 0.5) * 0.5
    let hue := rand (6 * i + 5) * 60 + 200
    { x := x, y := y, size := size, speedX := speedX, speedY := speedY,
      hue := hue, originalX := x, originalY := y })

/-- Claim C1: for every surface of width `W` and height `H` (nonnegative, as
canvas dimensions are) and every random stream with samples in `[0,1)`,
`createParticles` produces exactly `⌊W*H/15000⌋` particles, and every particle
of the result has position inside `[0,W) × [0,H)`. -/
theorem c1_createParticles (W H : ℝ) (rand : ℕ → ℝ)
    (hW : 0 ≤ W) (hH : 0 ≤ H)
    (hr : ∀ n, 0 ≤ rand n ∧ rand n < 1)
    (p : Particle) (hp : p ∈ createParticles W H rand) :
    (createParticles W H rand).length = (⌊W * H / 15000⌋).toNat ∧
      0 ≤ p.x ∧ p.x < W ∧ 0 ≤ p.y ∧ p.y < H := by
  constructor
  · simp [createParticles]
  · simp only [createParticles, List.mem_map, List.mem_range] at hp
    obtain ⟨i, hi, hpi⟩ := hp
    -- a nonempty particle list forces W*H ≥ 15000, hence W > 0 and H > 0
    have hfloor : (1 : ℤ) ≤ ⌊W * H / 15000⌋ := by omega
    have harea : (1 : ℝ) ≤ W * H / 15000 := by
      exact_mod_cast Int.le_floor.mp hfloor
    have hWpos : 0 < W := by nlinarith
    have hHpos : 0 < H := by nlinarith
    subst hpi
    refine ⟨mul_nonneg (hr _).1 hW, ?_, mul_nonneg (hr _).1 hH, ?_⟩
    · exact (mul_lt_iff_lt_one_left hWpos).mpr (hr _).2
    · exact (mul_lt_iff_lt_one_left hHpos).mpr (hr _).2

/-- The spec's scenario area computation: `⌊1500*1000/15000⌋ = 100`. -/
theorem floor_area_1500_1000 : (⌊(1500 : ℝ) * 1000 / 15000⌋).toNat = 100 := by
  have h : (1500 : ℝ) * 1000 / 15000 = ((100 : ℕ) : ℝ) := by norm_num
  rw [h, Int.floor_natCast]
  rfl

/-- The all-zero random stream used to instantiate witnesses. -/
def zeroRand : ℕ → ℝ := fun _ => 0

theorem zeroRand_range (n : ℕ) : 0 ≤ zeroRand n ∧ zeroRand n < 1 := by
  constructor <;> norm_num [zeroRand]

/-- The particle `createParticles 1500 1000 zeroRand` generates at index 0. -/
theorem zero_particle_mem :
    (⟨0, 0, 1, -0.25, -0.25, 200, 0, 0⟩ : Particle) ∈
      createParticles 1500 1000 zeroRand := by
  simp only [createParticles, List.mem_map, List.mem_range]
  refine ⟨0, ?_, ?_⟩
  · rw [floor_area_1500_1000]; norm_num
  · simp only [zeroRand, Particle.mk.injEq]
    norm_num

/-- Witness for C1 at the spec scenario: a 1500x1000 surface yields exactly
100 particles. -/
theorem c1_createParticles_witness :
    (createParticles 1500 1000 zeroRand).length = 100 := by
  have h := c1_createParticles 1500 1000 zeroRand (by norm_num) (by norm_num)
    zeroRand_range _ zero_particle_mem
  exact h.1.trans floor_area_1500_1000

/-- Claim C7: every particle created by initialization has size in `[1,4)`,
both velocity components in `[-0.25,0.25)` and hue in `[200,260)`, for every
value of the underlying uniform random samples in `[0,1)`. -/
theorem c7_particle_ranges (W H : ℝ) (rand : ℕ → ℝ)
    (hr : ∀ n, 0 ≤ rand n ∧ rand n < 1)
    (p : Particle) (hp : p ∈ createParticles W H rand) :
    (1 ≤ p.size ∧ p.size < 4) ∧
      (-0.25 ≤ p.speedX ∧ p.speedX < 0.25) ∧
      (-0.25 ≤ p.speedY ∧ p.speedY < 0.25) ∧
      (200 ≤ p.hue ∧ p.hue < 260) := by
  simp only [createParticles, List.mem_map, List.mem_range] at hp
  obtain ⟨i, hi, hpi⟩ := hp
  subst hpi
  obtain ⟨hs0, hs1⟩ := hr (6 * i)
  obtain ⟨hx0, hx1⟩ := hr (6 * i + 3)
  obtain ⟨hy0, hy1⟩ := hr (6 * i + 4)
  obtain ⟨hh0, hh1⟩ := hr (6 * i + 5)
  refine ⟨⟨?_, ?_⟩, ⟨?_, ?_⟩, ⟨?_, ?_⟩, ⟨?_, ?_⟩⟩ <;> dsimp only <;> linarith

/-- Witness for C7: the particle generated at index 0 from the all-zero
stream on a 1500x1000 surface satisfies all the stated ranges. -/
theorem c7_particle_ranges_witness :
    (1 ≤ (Particle.mk 0 0 1 (-0.25) (-0.25) 200 0 0).size ∧
        (Particle.mk 0 0 1 (-0.25) (-0.25) 200 0 0).size < 4) ∧
      (-0.25 ≤ (Particle.mk 0 0 1 (-0.25) (-0.25) 200 0 0).speedX ∧
        (Particle.mk 0 0 1 (-0.25) (-0.25) 200 0 0).speedX < 0.25) ∧
      (-0.25 ≤ (Particle.mk 0 0 1 (-0.25) (-0.25) 200 0 0).speedY ∧
        (Particle.mk 0 0 1 (-0.25) (-0.25) 200 0 0).speedY < 0.25) ∧
      (200 ≤ (Particle.mk 0 0 1 (-0.25) (-0.25) 200 0 0).hue ∧
        (Particle.mk 0 0 1 (-0.25) (-0.25) 200 0 0).hue < 260) :=
  c7_particle_ranges 1500 1000 zeroRand zeroRand_range _ zero_particle_mem

/-- The canvas-layer state owned by `UnifiedVisualManager`: the canvas
dimensions and the particle list. -/
structure CanvasState where
  width : ℝ
  height : ℝ
  particles : List Particle

/-- `resizeCanvas` (lines 83-91): sets `canvas.width`/`canvas.height` to the
window dimensions, then recreates the particles only when the current
particle list is nonempty (`if (this.particles.length > 0)`). -/
noncomputable def resizeCanvas (newW newH : ℝ) (rand : ℕ → ℝ)
    (s : CanvasState) : CanvasState :=
  let s1 : CanvasState := { s with width := newW, height := newH }
  if s1.particles.length > 0 then
    { s1 with particles := createParticles newW newH rand }
  else s1

/-- Counterexample to C2: resizing a state whose particle list is empty to
1500x1000 leaves the particle count at 0, not `⌊1500*1000/15000⌋ = 100`. -/
theorem c2_resize_counterexample :
    ¬ ((resizeCanvas 1500 1000 zeroRand ⟨0, 0, []⟩).particles.length =
        (⌊(1500 : ℝ) * 1000 / 15000⌋).toNat) := by
  rw [floor_area_1500_1000]
  simp [resizeCanvas]

/-- Claim C2, amended: a resize always installs the new dimensions; when the
particle set before the resize is nonempty it is regenerated per the
initialization rule, so its count is `⌊newW*newH/15000⌋`; but a resize from
an empty particle set leaves the particle set empty. -/
theorem c2_resize_amended (newW newH : ℝ) (rand : ℕ → ℝ) (s s0 : CanvasState)
    (h : 0 < s.particles.length) (h0 : s0.particles = []) :
    (resizeCanvas newW newH rand s).width = newW ∧
      (resizeCanvas newW newH rand s).height = newH ∧
      (resizeCanvas newW newH rand s).particles =
        createParticles newW newH rand ∧
      (resizeCanvas newW newH rand s).particles.length =
        (⌊newW * newH / 15000⌋).toNat ∧
      (resizeCanvas newW newH rand s0).particles = [] := by
  refine ⟨?_, ?_, ?_, ?_, ?_⟩ <;>
    simp [resizeCanvas, h, h0, createParticles]

/-- Witness for the amended C2: resizing a one-particle state to 1500x1000
yields 100 particles, while resizing an empty state leaves it empty. -/
theorem c2_resize_amended_witness :
    (resizeCanvas 1500 1000 zeroRand
        ⟨300, 300, [⟨0, 0, 1, -0.25, -0.25, 200, 0, 0⟩]⟩).particles.length =
      100 ∧
    (resizeCanvas 1500 1000 zeroRand ⟨300, 300, []⟩).particles = [] := by
  have h := c2_resize_amended 1500 1000 zeroRand
    ⟨300, 300, [⟨0, 0, 1, -0.25, -0.25, 200, 0, 0⟩]⟩ ⟨300, 300, []⟩
    (by simp) rfl
  exact ⟨h.2.2.2.1.trans floor_area_1500_1000, h.2.2.2.2⟩

/-- JavaScript's `Math.atan2(y, x)`: the argument of the point `(x, y)`,
i.e. `Complex.arg` of `x + y*I` (in particular `atan2 0 0 = 0`, as in JS). -/
noncomputable def atan2 (y x : ℝ) : ℝ := Complex.arg ⟨x, y⟩

/-- The mouse-interaction branch of `drawParticles` (lines 154-165), for a
mouse at `(mouseX, mouseY)` with repulsion radius `radius` (the source uses
`this.mouse.radius = 150`): `dx = mouse.x - particle.x`,
`dy = mouse.y - particle.y`, `distance = Math.sqrt(dx*dx + dy*dy)`; if
`distance < radius` then `force = (radius - distance) / radius`,
`angle = Math.atan2(dy, dx)`, and the particle position is decreased by
`cos(angle)*force*3` in x and `sin(angle)*force*3` in y. -/
noncomputable def repelStep (mouseX mouseY radius : ℝ) (p : Particle) :
    Particle :=
  let dx := mouseX - p.x
  let dy := mouseY - p.y
  let distance := Real.sqrt (dx * dx + dy * dy)
  if distance < radius then
    let force := (radius - distance) / radius
    let angle := atan2 dy dx
    { p with x := p.x - Real.cos angle * force * 3,
             y := p.y - Real.sin angle * force * 3 }
  else p

/-- The mouse guard of `drawParticles` (line 154): the repulsion runs only
when `this.mouse.x !== null && this.mouse.y !== null`; the mouse record is
modelled as an optional coordinate pair. -/
noncomputable def mouseStep (mouse : Option (ℝ × ℝ)) (p : Particle) :
    Particle :=
  match mouse with
  | some m => repelStep m.1 m.2 150 p
  | none => p

/-- The return-to-origin step (lines 168-169):
`particle.x += (particle.originalX - particle.x) * 0.02` and likewise for y. -/
def returnStep (p : Particle) : Particle :=
  { p with x := p.x + (p.originalX - p.x) * 0.02,
           y := p.y + (p.originalY - p.y) * 0.02 }

/-- The drift step (lines 172-173): `particle.x += particle.speedX`,
`particle.y += particle.speedY`. -/
def moveStep (p : Particle) : Particle :=
  { p with x := p.x + p.speedX, y := p.y + p.speedY }

/-- A particle's position after the three movement steps of a frame, before
the edge wrap. -/
noncomputable def preWrap (mouse : Option (ℝ × ℝ)) (p : Particle) : Particle :=
  moveStep (returnStep (mouseStep mouse p))

/-- One coordinate of the edge wrap (lines 176-179): first
`if (x > bound) x = 0`, then `if (x < 0) x = bound`, in that order. -/
noncomputable def wrapCoord (bound x : ℝ) : ℝ :=
  let x1 := if x > bound then 0 else x
  if x1 < 0 then bound else x1

/-- The full edge wrap of `drawParticles` (lines 176-179), applied to both
coordinates (x against `canvas.width`, y against `canvas.height`). -/
noncomputable def wrapParticle (W H : ℝ) (p : Particle) : Particle :=
  { p with x := wrapCoord W p.x, y := wrapCoord H p.y }

/-- The complete per-frame state update `drawParticles` performs on one
particle (lines 152-179): mouse repulsion, return to origin, drift, wrap. -/
noncomputable def updateParticle (mouse : Option (ℝ × ℝ)) (W H : ℝ)
    (p : Particle) : Particle :=
  wrapParticle W H (preWrap mouse p)

theorem wrapCoord_gt (bound x : ℝ) (h : x > bound) : wrapCoord bound x = 0 := by
  simp [wrapCoord, if_pos h]

theorem wrapCoord_neg (bound x : ℝ) (hb : 0 ≤ bound) (h : x < 0) :
    wrapCoord bound x = bound := by
  have hx : ¬ x > bound := by linarith
  simp [wrapCoord, if_neg hx, if_pos h]

/-- Claim C3: in every per-frame update, a particle coordinate exceeding the
surface bound after the movement steps is reset to 0 by the wrap of the same
update, and a coordinate below 0 is reset to the opposite bound (`W` for x,
`H` for y). -/
theorem c3_wrap_reset (mouse : Option (ℝ × ℝ)) (W H : ℝ) (p : Particle)
    (hW : 0 ≤ W) (hH : 0 ≤ H) :
    ((preWrap mouse p).x > W → (updateParticle mouse W H p).x = 0) ∧
      ((preWrap mouse p).x < 0 → (updateParticle mouse W H p).x = W) ∧
      ((preWrap mouse p).y > H → (updateParticle mouse W H p).y = 0) ∧
      ((preWrap mouse p).y < 0 → (updateParticle mouse W H p).y = H) := by
  refine ⟨fun h => ?_, fun h => ?_, fun h => ?_, fun h => ?_⟩ <;>
    show wrapCoord _ _ = _
  · exact wrapCoord_gt W _ h
  · exact wrapCoord_neg W _ hW h
  · exact wrapCoord_gt H _ h
  · exact wrapCoord_neg H _ hH h

/-- Witness for C3: on a 100x100 surface with no mouse, a particle whose
pre-wrap position is (200, -5) ends the update at x = 0 and y = 100. -/
theorem c3_wrap_reset_witness :
    (updateParticle none 100 100 (Particle.mk 200 (-5) 1 0 0 200 200 (-5))).x
        = 0 ∧
      (updateParticle none 100 100 (Particle.mk 200 (-5) 1 0 0 200 200 (-5))).y
        = 100 := by
  have h := c3_wrap_reset none 100 100 (Particle.mk 200 (-5) 1 0 0 200 200 (-5))
    (by norm_num) (by norm_num)
  refine ⟨h.1 ?_, h.2.2.2 ?_⟩ <;>
    norm_num [preWrap, mouseStep, returnStep, moveStep]

theorem wrapCoord_mem (bound x : ℝ) (hb : 0 ≤ bound) :
    0 ≤ wrapCoord bound x ∧ wrapCoord bound x ≤ bound := by
  simp only [wrapCoord]
  split_ifs <;> constructor <;> linarith

theorem wrapCoord_bound (bound : ℝ) (hb : 0 ≤ bound) :
    wrapCoord bound bound = bound := by
  simp only [wrapCoord]
  split_ifs <;> linarith

/-- Claim C10: after the wrap step of every per-frame update the particle's
coordinates lie in `[0,W] × [0,H]` (for nonnegative `W`, `H`); a coordinate
below 0 is set to exactly the opposite bound (not the bound minus the
overshoot), and a coordinate exactly equal to the bound is left unchanged. -/
theorem c10_wrap_invariant (mouse : Option (ℝ × ℝ)) (W H : ℝ) (p : Particle)
    (hW : 0 ≤ W) (hH : 0 ≤ H) (x : ℝ) (hx : x < 0) :
    (0 ≤ (updateParticle mouse W H p).x ∧ (updateParticle mouse W H p).x ≤ W) ∧
      (0 ≤ (updateParticle mouse W H p).y ∧
        (updateParticle mouse W H p).y ≤ H) ∧
      wrapCoord W x = W ∧ wrapCoord W W = W := by
  refine ⟨?_, ?_, wrapCoord_neg W x hW hx, wrapCoord_bound W hW⟩
  · exact wrapCoord_mem W _ hW
  · exact wrapCoord_mem H _ hH

/-- Witness for C10 on a 100x100 surface with no mouse: the updated particle
stays in bounds, `wrapCoord 100 (-5) = 100` and `wrapCoord 100 100 = 100`. -/
theorem c10_wrap_invariant_witness :
    (0 ≤ (updateParticle none 100 100 (Particle.mk 50 60 1 0 0 200 50 60)).x ∧
        (updateParticle none 100 100 (Particle.mk 50 60 1 0 0 200 50 60)).x
          ≤ 100) ∧
      (0 ≤ (updateParticle none 100 100 (Particle.mk 50 60 1 0 0 200 50 60)).y ∧
        (updateParticle none 100 100 (Particle.mk 50 60 1 0 0 200 50 60)).y
          ≤ 100) ∧
      wrapCoord 100 (-5) = 100 ∧ wrapCoord 100 100 = 100 :=
  c10_wrap_invariant none 100 100 (Particle.mk 50 60 1 0 0 200 50 60)
    (by norm_num) (by norm_num) (-5) (by norm_num)

/-- Claim C9: the per-frame update of `drawParticles` changes only the
position fields; size, velocity, hue and the origin anchor are unchanged by
every frame, for any mouse state and surface size. -/
theorem c9_update_fields (mouse : Option (ℝ × ℝ)) (W H : ℝ) (p : Particle) :
    (updateParticle mouse W H p).size = p.size ∧
      (updateParticle mouse W H p).speedX = p.speedX ∧
      (updateParticle mouse W H p).speedY = p.speedY ∧
      (updateParticle mouse W H p).hue = p.hue ∧
      (updateParticle mouse W H p).originalX = p.originalX ∧
      (updateParticle mouse W H p).originalY = p.originalY := by
  cases mouse with
  | none => exact ⟨rfl, rfl, rfl, rfl, rfl, rfl⟩
  | some m =>
      simp only [updateParticle, wrapParticle, preWrap, moveStep, returnStep,
        mouseStep, repelStep]
      split_ifs <;> exact ⟨rfl, rfl, rfl, rfl, rfl, rfl⟩

/-- Claim C5: when the particle coincides with the pointer (distance 0) the
repulsion step is still well defined — in the real-valued model (as in JS,
where `Math.atan2(0, 0) = 0`) it produces the finite result
`(x - 3, y)`: no NaN, the x coordinate just moves by the full strength. -/
theorem c5_pointer_coincident (p : Particle) :
    repelStep p.x p.y 150 p = { p with x := p.x - 3 } := by
  have hz : (⟨(0 : ℝ), (0 : ℝ)⟩ : ℂ) = 0 := by
    apply Complex.ext <;> simp
  have harg : atan2 (0 : ℝ) (0 : ℝ) = 0 := by
    rw [atan2, hz, Complex.arg_zero]
  simp only [repelStep, sub_self, mul_zero, zero_mul, add_zero,
    Real.sqrt_zero, harg, Real.cos_zero, Real.sin_zero]
  rw [if_pos (by norm_num : (0 : ℝ) < 150)]
  have hx : p.x - 1 * ((150 - 0) / 150) * 3 = p.x - 3 := by norm_num
  have hy : p.y - 0 * ((150 - 0) / 150) * 3 = p.y := by norm_num
  simp [hx, hy]

theorem sin_atan2 (y x : ℝ) :
    Real.sin (atan2 y x) = y / Real.sqrt (x * x + y * y) := by
  rw [atan2, Complex.sin_arg, Complex.abs_apply, Complex.normSq_mk]

theorem cos_atan2 (y x : ℝ) (h : ¬(x = 0 ∧ y = 0)) :
    Real.cos (atan2 y x) = x / Real.sqrt (x * x + y * y) := by
  have hz : (⟨x, y⟩ : ℂ) ≠ 0 := by
    simpa [Complex.ext_iff] using h
  rw [atan2, Complex.cos_arg hz, Complex.abs_apply, Complex.normSq_mk]

/-- Claim C4: a particle at distance `0 < d < 150` from the pointer is pushed
strictly away from it — the displacement's dot product with the
pointer-to-particle direction is positive — and each displacement component
carries the force factor `(150 - d)/150` (times the strength 3, along the
unit vector from pointer to particle). -/
theorem c4_repulsion_away (mx my : ℝ) (p : Particle) (d : ℝ)
    (hd : d = Real.sqrt ((mx - p.x) * (mx - p.x) + (my - p.y) * (my - p.y)))
    (h0 : 0 < d) (hR : d < 150) :
    0 < ((repelStep mx my 150 p).x - p.x) * (p.x - mx) +
        ((repelStep mx my 150 p).y - p.y) * (p.y - my) ∧
      (repelStep mx my 150 p).x - p.x =
        -(((mx - p.x) / d) * ((150 - d) / 150) * 3) ∧
      (repelStep mx my 150 p).y - p.y =
        -(((my - p.y) / d) * ((150 - d) / 150) * 3) := by
  have hdne : d ≠ 0 := ne_of_gt h0
  have hsum_pos : 0 < (mx - p.x) * (mx - p.x) + (my - p.y) * (my - p.y) := by
    by_contra hcon
    push_neg at hcon
    have : Real.sqrt ((mx - p.x) * (mx - p.x) + (my - p.y) * (my - p.y)) = 0 :=
      Real.sqrt_eq_zero_of_nonpos hcon
    rw [← hd] at this
    exact hdne this
  have hnb : ¬(mx - p.x = 0 ∧ my - p.y = 0) := by
    rintro ⟨h1, h2⟩
    rw [h1, h2] at hsum_pos
    norm_num at hsum_pos
  have hcos := cos_atan2 (my - p.y) (mx - p.x) hnb
  have hsin := sin_atan2 (my - p.y) (mx - p.x)
  have hlt : Real.sqrt ((mx - p.x) * (mx - p.x) + (my - p.y) * (my - p.y))
      < 150 := hd ▸ hR
  have hqx : (repelStep mx my 150 p).x =
      p.x - ((mx - p.x) / d) * ((150 - d) / 150) * 3 := by
    simp only [repelStep]
    rw [if_pos hlt]
    show p.x - Real.cos (atan2 (my - p.y) (mx - p.x)) *
        ((150 - Real.sqrt ((mx - p.x) * (mx - p.x) + (my - p.y) * (my - p.y)))
          / 150) * 3 = _
    rw [hcos, ← hd]
  have hqy : (repelStep mx my 150 p).y =
      p.y - ((my - p.y) / d) * ((150 - d) / 150) * 3 := by
    simp only [repelStep]
    rw [if_pos hlt]
    show p.y - Real.sin (atan2 (my - p.y) (mx - p.x)) *
        ((150 - Real.sqrt ((mx - p.x) * (mx - p.x) + (my - p.y) * (my - p.y)))
          / 150) * 3 = _
    rw [hsin, ← hd]
  have hd2 : (mx - p.x) * (mx - p.x) + (my - p.y) * (my - p.y) = d * d := by
    rw [hd, Real.mul_self_sqrt hsum_pos.le]
  refine ⟨?_, by rw [hqx]; ring, by rw [hqy]; ring⟩
  have hdot : ((repelStep mx my 150 p).x - p.x) * (p.x - mx) +
      ((repelStep mx my 150 p).y - p.y) * (p.y - my) =
      (((mx - p.x) * (mx - p.x) + (my - p.y) * (my - p.y)) / d) *
        ((150 - d) / 150) * 3 := by
    rw [hqx, hqy]
    ring
  rw [hdot, hd2]
  have hdd : d * d / d = d := by
    field_simp
  rw [hdd]
  have hforce : 0 < (150 - d) / 150 := by
    apply div_pos (by linarith) (by norm_num)
  positivity

theorem sqrt_5625 : Real.sqrt 5625 = 75 := by
  rw [show (5625 : ℝ) = 75 ^ 2 by norm_num,
    Real.sqrt_sq (by norm_num : (0 : ℝ) ≤ 75)]

/-- Witness for C4: a particle at (75, 0) with the pointer at the origin is
at distance 75 < 150; it is pushed strictly away from the pointer, and the
force factor of the scenario is (150 - 75)/150 = 0.5. -/
theorem c4_repulsion_away_witness :
    (0 < ((repelStep 0 0 150 (Particle.mk 75 0 1 0 0 200 75 0)).x -
          (Particle.mk 75 0 1 0 0 200 75 0).x) *
          ((Particle.mk 75 0 1 0 0 200 75 0).x - 0) +
        ((repelStep 0 0 150 (Particle.mk 75 0 1 0 0 200 75 0)).y -
          (Particle.mk 75 0 1 0 0 200 75 0).y) *
          ((Particle.mk 75 0 1 0 0 200 75 0).y - 0)) ∧
      ((150 : ℝ) - 75) / 150 = 0.5 := by
  have hd : (75 : ℝ) = Real.sqrt
      ((0 - (Particle.mk (75 : ℝ) 0 1 0 0 200 75 0).x) *
        (0 - (Particle.mk (75 : ℝ) 0 1 0 0 200 75 0).x) +
       (0 - (Particle.mk (75 : ℝ) 0 1 0 0 200 75 0).y) *
        (0 - (Particle.mk (75 : ℝ) 0 1 0 0 200 75 0).y)) := by
    dsimp only
    rw [show ((0 : ℝ) - 75) * ((0 : ℝ) - 75) + ((0 : ℝ) - 0) * ((0 : ℝ) - 0)
        = 5625 by norm_num, sqrt_5625]
  have h := c4_repulsion_away 0 0 (Particle.mk 75 0 1 0 0 200 75 0) 75 hd
    (by norm_num) (by norm_num)
  exact ⟨h.1, by norm_num⟩

/-- The inter-particle distance computed by `drawConnections` (lines
197-199): `Math.sqrt(dx*dx + dy*dy)` of the coordinate differences. -/
noncomputable def particleDistance (p q : Particle) : ℝ :=
  Real.sqrt ((p.x - q.x) * (p.x - q.x) + (p.y - q.y) * (p.y - q.y))

/-- The connection-line opacity of `drawConnections` (lines 193-209) as a
function of the pair's distance: `(1 - distance/maxDistance) * 0.3` when
`distance < maxDistance = 120`; otherwise no line is drawn, i.e. opacity
0. -/
noncomputable def connectionOpacity (distance : ℝ) : ℝ :=
  if distance < 120 then (1 - distance / 120) * 0.3 else 0

/-- Claim C6: for every pair of particles at distance < 120 the connection
opacity is `(1 - d/120) * 0.3`; the opacity is strictly decreasing on
`[0, 120)` (any strictly larger distance still below 120 gives a strictly
smaller opacity); the opacity is exactly 0 at distance ≥ 120; and distance
60 gives opacity 0.15. -/
theorem c6_connection_opacity (p q : Particle) (d2 dge : ℝ)
    (h1 : particleDistance p q < 120)
    (h2 : particleDistance p q < d2) (h3 : d2 < 120) (hge : 120 ≤ dge) :
    connectionOpacity (particleDistance p q) =
        (1 - particleDistance p q / 120) * 0.3 ∧
      connectionOpacity d2 < connectionOpacity (particleDistance p q) ∧
      connectionOpacity dge = 0 ∧
      connectionOpacity 60 = 0.15 := by
  refine ⟨?_, ?_, ?_, ?_⟩
  · simp only [connectionOpacity]
    rw [if_pos h1]
  · simp only [connectionOpacity]
    rw [if_pos h3, if_pos h1]
    linarith
  · simp only [connectionOpacity]
    rw [if_neg (not_lt.mpr hge)]
  · simp only [connectionOpacity]
    rw [if_pos (by norm_num : (60 : ℝ) < 120)]
    norm_num

theorem sqrt_3600 : Real.sqrt 3600 = 60 := by
  rw [show (3600 : ℝ) = 60 ^ 2 by norm_num,
    Real.sqrt_sq (by norm_num : (0 : ℝ) ≤ 60)]

/-- Witness for C6: particles at (0,0) and (60,0) are at distance 60, so the
connection opacity is (1 - 60/120)*0.3 = 0.15, at distance 100 it is smaller,
and at distance 120 it is 0. -/
theorem c6_connection_opacity_witness :
    connectionOpacity
        (particleDistance (Particle.mk 0 0 1 0 0 200 0 0)
          (Particle.mk 60 0 1 0 0 200 60 0)) =
      (1 - particleDistance (Particle.mk 0 0 1 0 0 200 0 0)
          (Particle.mk 60 0 1 0 0 200 60 0) / 120) * 0.3 ∧
    connectionOpacity 100 <
      connectionOpacity
        (particleDistance (Particle.mk 0 0 1 0 0 200 0 0)
          (Particle.mk 60 0 1 0 0 200 60 0)) ∧
    connectionOpacity 120 = 0 ∧
    connectionOpacity 60 = 0.15 := by
  have hdist : particleDistance (Particle.mk 0 0 1 0 0 200 0 0)
      (Particle.mk 60 0 1 0 0 200 60 0) = 60 := by
    simp only [particleDistance]
    rw [show ((0 : ℝ) - 60) * ((0 : ℝ) - 60) + ((0 : ℝ) - 0) * ((0 : ℝ) - 0)
        = 3600 by norm_num, sqrt_3600]
  exact c6_connection_opacity (Particle.mk 0 0 1 0 0 200 0 0)
    (Particle.mk 60 0 1 0 0 200 60 0) 100 120
    (by rw [hdist]; norm_num) (by rw [hdist]; norm_num) (by norm_num)
    (by norm_num)

/-- The DOM state `toggleMobileMenu` touches: whether the nav menu's class
list contains the class named active, and the inline styles of the three
hamburger spans. -/
structure MenuState where
  active : Bool
  span0Transform : String
  span1Opacity : String
  span2Transform : String

/-- `toggleMobileMenu` (lines 298-312): `classList.toggle` flips membership
of the active class; then the three spans are styled according to whether
the class is now present. -/
def toggleMobileMenu (s : MenuState) : MenuState :=
  let active := !s.active
  if active then
    { active := active,
      span0Transform := "rotate(45deg) translate(5px, 5px)",
      span1Opacity := "0",
      span2Transform := "rotate(-45deg) translate(7px, -6px)" }
  else
    { active := active,
      span0Transform := "none",
      span1Opacity := "1",
      span2Transform := "none" }

/-- Claim C8: invoking the mobile-menu toggle twice returns the menu's
active-class membership to its original value, from every starting state. -/
theorem c8_toggle_involution (s : MenuState) :
    (toggleMobileMenu (toggleMobileMenu s)).active = s.active := by
  cases s with
  | mk a s0 s1 s2 => cases a <;> rfl
